import Mathlib

/-!
Verification of the jerryrig repository-migration tool.

Shallow embedding of the parts of the `jerryrig` code base that the
specification's testable claims are about, together with proofs settling
each claim.  Each definition is translated directly from the Python
source file named in its doc comment.
-/

namespace JerryRig

/-! ## Chunking agent (`src/jerryrig/agents/chunking_agents.py`)

`RepositoryChunkerAgent._create_file_chunks` groups a file list into
slices of at most `chunk_size` files via `files[i:i+chunk_size]` for
`i in range(0, len(files), chunk_size)`, and
`RepositoryChunkerAgent._estimate_chunk_complexity` buckets a chunk by
total size, file count and language count. -/

namespace ChunkingAgents

/-- One file record as built by `_extract_files_from_repository`:
`{"path": ..., "content": ..., "size": ..., "language": ...}`. -/
structure FileRecord where
  path : String
  content : String
  size : Nat
  language : String
deriving Repr, DecidableEq

/-- Fuel-driven worker for `chunkSlices`; the fuel is an upper bound
on the list length, so the recursion is structural (and hence
kernel-evaluable on concrete inputs). -/
def chunkSlicesGo : Nat → List α → Nat → List (List α)
  | _, _, 0 => []
  | _, [], _ + 1 => []
  | 0, _ :: _, _ + 1 => []
  | f + 1, x :: xs, k + 1 =>
    ((x :: xs).take (k + 1)) :: chunkSlicesGo f (xs.drop k) (k + 1)

/-- The slicing loop of `_create_file_chunks`:
`for i in range(0, len(files), chunk_size): files[i:i+chunk_size]`.
A step count of `0` is a `ValueError` in Python's `range`; the claims
only concern positive chunk sizes. -/
def chunkSlices (l : List α) (k : Nat) : List (List α) :=
  chunkSlicesGo l.length l k

theorem chunkSlicesGo_congr (f₁ : Nat) :
    ∀ (f₂ : Nat) (l : List α) (k : Nat), l.length ≤ f₁ → l.length ≤ f₂ →
      chunkSlicesGo f₁ l k = chunkSlicesGo f₂ l k := by
  induction f₁ with
  | zero =>
    intro f₂ l k h1 _
    have : l = [] := List.length_eq_zero.mp (by omega)
    subst this
    cases k <;> cases f₂ <;> rfl
  | succ f ih =>
    intro f₂ l k h1 h2
    match l, k, f₂ with
    | [], k, f₂ => cases k <;> cases f₂ <;> rfl
    | x :: xs, 0, f₂ => cases f₂ <;> rfl
    | x :: xs, k + 1, f₂ + 1 =>
      show _ :: chunkSlicesGo f (xs.drop k) (k + 1)
          = _ :: chunkSlicesGo f₂ (xs.drop k) (k + 1)
      have hd : (xs.drop k).length ≤ f := by
        simp only [List.length_drop]
        simp only [List.length_cons] at h1
        omega
      have hd2 : (xs.drop k).length ≤ f₂ := by
        simp only [List.length_drop]
        simp only [List.length_cons] at h2
        omega
      rw [ih f₂ (xs.drop k) (k + 1) hd hd2]

theorem chunkSlices_nil (k : Nat) : chunkSlices ([] : List α) k = [] := by
  cases k <;> rfl

theorem chunkSlices_cons (x : α) (xs : List α) (k : Nat) :
    chunkSlices (x :: xs) (k + 1)
      = ((x :: xs).take (k + 1)) :: chunkSlices (xs.drop k) (k + 1) := by
  show _ :: chunkSlicesGo xs.length (xs.drop k) (k + 1) = _
  rw [chunkSlicesGo_congr xs.length (xs.drop k).length (xs.drop k) (k + 1)
    (by simp [List.length_drop]) le_rfl]
  rfl

/-- A chunk dict as built by `_create_file_chunks` (the `created_at`
timestamp is omitted from the model). -/
structure Chunk where
  chunkId : Nat
  files : List FileRecord
  fileCount : Nat
  totalSize : Nat
  languages : List String
deriving Repr, DecidableEq

/-- Model of `RepositoryChunkerAgent._create_file_chunks`: each slice becomes a
chunk whose `chunk_id` is its position (`len(chunks)` at append time). -/
def createFileChunks (files : List FileRecord) (chunkSize : Nat) : List Chunk :=
  (chunkSlices files chunkSize).enum.map fun p =>
    { chunkId := p.1
      files := p.2
      fileCount := p.2.length
      totalSize := (p.2.map (·.size)).sum
      languages := ((p.2.map (·.language)).dedup) }

/-- Model of `RepositoryChunkerAgent._estimate_chunk_complexity`: `high` if
total size > 50000 or file count > 20 or more than 3 languages;
`medium` if total size > 10000 or file count > 10 or more than one
language; else `low`. -/
def estimateChunkComplexity (c : Chunk) : String :=
  if c.totalSize > 50000 ∨ c.fileCount > 20 ∨ c.languages.length > 3 then "high"
  else if c.totalSize > 10000 ∨ c.fileCount > 10 ∨ c.languages.length > 1 then "medium"
  else "low"

theorem chunkSlices_flatten (l : List α) (k : Nat) :
    (chunkSlices l (k + 1)).flatten = l :=
  match l with
  | [] => by simp [chunkSlices_nil]
  | x :: xs => by
    rw [chunkSlices_cons]
    have h := chunkSlices_flatten (xs.drop k) k
    simp only [List.flatten_cons, h]
    simp [List.take_succ_cons]
termination_by l.length
decreasing_by simp only [List.length_drop, List.length_cons]; omega

theorem chunkSlices_length (l : List α) (k : Nat) :
    (chunkSlices l (k + 1)).length = (l.length + k) / (k + 1) :=
  match l with
  | [] => by
    simp only [chunkSlices_nil, List.length_nil, Nat.zero_add]
    exact (Nat.div_eq_of_lt (by omega)).symm
  | x :: xs => by
    rw [chunkSlices_cons]
    have h := chunkSlices_length (xs.drop k) k
    simp only [List.length_cons, h, List.length_drop]
    have hrw : xs.length + 1 + k = xs.length + (k + 1) := by omega
    rw [hrw, Nat.add_div_right _ (by omega)]
    rcases le_or_lt k xs.length with hk | hk
    · have hs : xs.length - k + k = xs.length := by omega
      rw [hs]
    · have h1 : xs.length - k = 0 := by omega
      rw [h1, Nat.zero_add, Nat.div_eq_of_lt (by omega),
        Nat.div_eq_of_lt (by omega)]
termination_by l.length
decreasing_by simp only [List.length_drop, List.length_cons]; omega

theorem chunkSlices_le (l : List α) (k : Nat) :
    ∀ c ∈ chunkSlices l (k + 1), c.length ≤ k + 1 :=
  match l with
  | [] => by simp [chunkSlices_nil]
  | x :: xs => by
    rw [chunkSlices_cons]
    intro c hc
    rcases List.mem_cons.mp hc with h | h
    · subst h; exact List.length_take_le _ _
    · exact chunkSlices_le (xs.drop k) k c h
termination_by l.length
decreasing_by simp only [List.length_drop, List.length_cons]; omega

theorem createFileChunks_files (files : List FileRecord) (k : Nat) :
    (createFileChunks files k).map (·.files) = chunkSlices files k := by
  unfold createFileChunks
  rw [List.map_map]
  have : ((fun c : Chunk => c.files) ∘ fun p : Nat × List FileRecord =>
      ({ chunkId := p.1, files := p.2, fileCount := p.2.length,
         totalSize := (p.2.map (·.size)).sum,
         languages := ((p.2.map (·.language)).dedup) } : Chunk)) = Prod.snd := by
    funext p; rfl
  rw [this, List.enum_map_snd]

/-- C7: for every file list of length `N` and positive chunk size `K`,
`_create_file_chunks` produces exactly `⌈N/K⌉` chunks, each holding at
most `K` files, and the chunks' file lists concatenate back to the
original list. -/
theorem create_file_chunks_partition (files : List FileRecord) (k : Nat)
    (hk : 0 < k) :
    (createFileChunks files k).length = (files.length + k - 1) / k ∧
    (∀ c ∈ createFileChunks files k, c.files.length ≤ k) ∧
    ((createFileChunks files k).map (·.files)).flatten = files := by
  obtain ⟨j, rfl⟩ : ∃ j, k = j + 1 := ⟨k - 1, by omega⟩
  refine ⟨?_, ?_, ?_⟩
  · have h1 : (createFileChunks files (j + 1)).length =
        (chunkSlices files (j + 1)).length := by
      have := congrArg List.length (createFileChunks_files files (j + 1))
      simpa using this
    rw [h1, chunkSlices_length]
    have hnum : files.length + j = files.length + (j + 1) - 1 := by omega
    rw [hnum]
  · intro c hc
    have : c.files ∈ (createFileChunks files (j + 1)).map (·.files) :=
      List.mem_map_of_mem _ hc
    rw [createFileChunks_files] at this
    exact chunkSlices_le files j c.files this
  · rw [createFileChunks_files, chunkSlices_flatten]

/-- Witness for `create_file_chunks_partition` at a concrete 3-file
list and chunk size 2. -/
theorem create_file_chunks_partition_witness :
    0 < 2 ∧
    ((createFileChunks
        [⟨"a.py", "x", 1, "python"⟩, ⟨"b.py", "y", 1, "python"⟩,
         ⟨"c.py", "z", 1, "python"⟩] 2).length = (3 + 2 - 1) / 2 ∧
      (∀ c ∈ createFileChunks
        [⟨"a.py", "x", 1, "python"⟩, ⟨"b.py", "y", 1, "python"⟩,
         ⟨"c.py", "z", 1, "python"⟩] 2, c.files.length ≤ 2) ∧
      ((createFileChunks
        [⟨"a.py", "x", 1, "python"⟩, ⟨"b.py", "y", 1, "python"⟩,
         ⟨"c.py", "z", 1, "python"⟩] 2).map (·.files)).flatten =
        [⟨"a.py", "x", 1, "python"⟩, ⟨"b.py", "y", 1, "python"⟩,
         ⟨"c.py", "z", 1, "python"⟩]) :=
  ⟨by decide, create_file_chunks_partition _ 2 (by decide)⟩

end ChunkingAgents

/-! ## SAM stage-function chunker (`sam_project/agents/repository_chunker.py`)

`_finalize_chunk` rates a chunk from its file count and total line
count: `> 40` files or `> 10000` lines is `high`, `> 20` files or
`> 5000` lines is `medium`, else `low`. -/

namespace SamChunker

/-- One file record as collected by `_analyze_repository` in
`repository_chunker.py` (`absolute_path` omitted). -/
structure SamFile where
  path : String
  size : Nat
  extension : String
  content : String
  lines : Nat
deriving Repr, DecidableEq

/-- The chunk record built by `_finalize_chunk`. -/
structure FinalChunk where
  files : List SamFile
  dependencies : List String
  complexity : String
  patterns : List String
  fileCount : Nat
  totalLines : Nat
  totalSize : Nat
  sourceLanguage : String
deriving Repr, DecidableEq

/-- Model of `_finalize_chunk` of `repository_chunker.py`: complexity starts
`low`, becomes `medium` if `len(files) > 20 or total_lines > 5000`,
then `high` if `len(files) > 40 or total_lines > 10000`. -/
def finalizeChunk (files : List SamFile) (sourceLanguage : String) : FinalChunk :=
  let totalLines := (files.map (·.lines)).sum
  let totalSize := (files.map (·.size)).sum
  let c1 := "low"
  let c2 := if files.length > 20 ∨ totalLines > 5000 then "medium" else c1
  let c3 := if files.length > 40 ∨ totalLines > 10000 then "high" else c2
  { files := files
    dependencies := []
    complexity := c3
    patterns := (files.map (·.extension)).dedup
    fileCount := files.length
    totalLines := totalLines
    totalSize := totalSize
    sourceLanguage := sourceLanguage }

/-- C6 counterexample: the claim ties the `21 files / 41 files /
5000 lines` examples to the §4.9 chunking agent
(`RepositoryChunkerAgent._estimate_chunk_complexity`), but that
function rates any chunk with more than 20 files `high`, so a chunk
of exactly 21 one-byte (zero-newline, hence 0-line) Python files is
rated `high`, not `medium`. -/
theorem estimate_chunk_complexity_21_files_high :
    (JerryRig.ChunkingAgents.createFileChunks
        (List.replicate 21 ⟨"f.py", "x", 1, "python"⟩) 50).map
      JerryRig.ChunkingAgents.estimateChunkComplexity = ["high"] := by
  decide

/-- C6 amended: the four threshold examples hold for the SAM stage
function's `_finalize_chunk` (`repository_chunker.py`): exactly 21
files with 0 total lines is `medium`, exactly 41 files is `high`,
20 files with 4999 lines is `low`, and 20 files with 5001 lines is
`medium`. -/
theorem finalize_chunk_thresholds (f21 f41 fLow fMed : List SamFile) (lang : String)
    (h21 : f21.length = 21) (h21l : (f21.map (·.lines)).sum = 0)
    (h41 : f41.length = 41)
    (hLo : fLow.length = 20) (hLol : (fLow.map (·.lines)).sum = 4999)
    (hMe : fMed.length = 20) (hMel : (fMed.map (·.lines)).sum = 5001) :
    (finalizeChunk f21 lang).complexity = "medium" ∧
    (finalizeChunk f41 lang).complexity = "high" ∧
    (finalizeChunk fLow lang).complexity = "low" ∧
    (finalizeChunk fMed lang).complexity = "medium" := by
  refine ⟨?_, ?_, ?_, ?_⟩
  · simp [finalizeChunk, h21, h21l]
  · simp [finalizeChunk, h41]
  · simp [finalizeChunk, hLo, hLol]
  · simp [finalizeChunk, hMe, hMel]

/-- Witness for `finalize_chunk_thresholds` at concrete file lists. -/
theorem finalize_chunk_thresholds_witness :
    ((List.replicate 21 (⟨"a.py", 1, ".py", "", 0⟩ : SamFile)).length = 21 ∧
      (List.replicate 41 (⟨"a.py", 1, ".py", "", 0⟩ : SamFile)).length = 41) ∧
    ((finalizeChunk (List.replicate 21 ⟨"a.py", 1, ".py", "", 0⟩) "python").complexity
        = "medium" ∧
      (finalizeChunk (List.replicate 41 ⟨"a.py", 1, ".py", "", 0⟩) "python").complexity
        = "high" ∧
      (finalizeChunk
          (List.replicate 19 ⟨"a.py", 1, ".py", "", 0⟩ ++ [⟨"b.py", 1, ".py", "", 4999⟩])
          "python").complexity = "low" ∧
      (finalizeChunk
          (List.replicate 19 ⟨"a.py", 1, ".py", "", 0⟩ ++ [⟨"b.py", 1, ".py", "", 5001⟩])
          "python").complexity = "medium") :=
  ⟨⟨by decide, by decide⟩,
    finalize_chunk_thresholds _ _ _ _ "python"
      (by decide) (by decide) (by decide) (by decide) (by decide) (by decide)
      (by decide)⟩

end SamChunker

/-! ## SAM code analyzer (`sam_project/agents/code_analyzer.py`)

`_assess_migration_readiness` accumulates a score from a complexity
bucket, an external-dependency bucket, shared patterns and the source
language, then clamps it to `[0, 1]`. -/

namespace SamAnalyzer

/-- The average per-file complexity computed at the top of
`_assess_migration_readiness`: sum of the `complexity_score` values
divided by the number of file analyses, `0` when there are none. -/
def avgComplexityOf (complexityScores : List ℚ) : ℚ :=
  if complexityScores = [] then 0
  else complexityScores.sum / complexityScores.length

/-- The `score` field produced by `_assess_migration_readiness`:
complexity factor (`< 10` → 0.3, `< 30` → 0.2, else 0.1) plus
dependency factor (`< 5` → 0.3, `< 15` → 0.2, else 0.1) plus 0.2 when
any shared pattern exists plus 0.2 when the source language is one of
python/javascript/typescript/java, clamped to `[0, 1]` via
`min(1.0, max(0.0, score))`. -/
def assessMigrationReadinessScore (complexityScores : List ℚ) (externalDeps : Nat)
    (sharedPatterns : List String) (sourceLanguage : String) : ℚ :=
  let avg := avgComplexityOf complexityScores
  let s1 : ℚ := if avg < 10 then 0.3 else if avg < 30 then 0.2 else 0.1
  let s2 : ℚ := s1 + (if externalDeps < 5 then 0.3 else if externalDeps < 15 then 0.2 else 0.1)
  let s3 : ℚ := s2 + (if sharedPatterns ≠ [] then 0.2 else 0)
  let s4 : ℚ := s3 +
    (if sourceLanguage ∈ ["python", "javascript", "typescript", "java"] then 0.2 else 0)
  min 1 (max 0 s4)

/-- C8: the migration-readiness score always lies in `[0, 1]`, and
moving the average complexity from the high bucket (`≥ 30`) to the low
bucket (`< 10`) with every other input held fixed never decreases the
score. -/
theorem assess_migration_readiness_bounded_monotone :
    (∀ (cs : List ℚ) (deps : Nat) (pats : List String) (lang : String),
      0 ≤ assessMigrationReadinessScore cs deps pats lang ∧
        assessMigrationReadinessScore cs deps pats lang ≤ 1) ∧
    (∀ (cs cs' : List ℚ) (deps : Nat) (pats : List String) (lang : String),
      30 ≤ avgComplexityOf cs → avgComplexityOf cs' < 10 →
        assessMigrationReadinessScore cs deps pats lang ≤
          assessMigrationReadinessScore cs' deps pats lang) := by
  constructor
  · intro cs deps pats lang
    refine ⟨le_min (by norm_num) (le_max_left 0 _), min_le_left 1 _⟩
  · intro cs cs' deps pats lang hhi hlo
    unfold assessMigrationReadinessScore
    have h1 : (if avgComplexityOf cs < 10 then (0.3 : ℚ)
        else if avgComplexityOf cs < 30 then 0.2 else 0.1) = 0.1 := by
      rw [if_neg (by linarith), if_neg (by linarith)]
    have h2 : (if avgComplexityOf cs' < 10 then (0.3 : ℚ)
        else if avgComplexityOf cs' < 30 then 0.2 else 0.1) = 0.3 := by
      rw [if_pos hlo]
    simp only [h1, h2]
    refine min_le_min le_rfl (max_le_max le_rfl ?_)
    gcongr
    norm_num

/-- Witness for `assess_migration_readiness_bounded_monotone`:
average complexity 30 versus 0, no dependencies, no shared patterns,
Python source. -/
theorem assess_migration_readiness_witness :
    ((30 : ℚ) ≤ avgComplexityOf [30] ∧ avgComplexityOf [0] < 10) ∧
    assessMigrationReadinessScore [30] 0 [] "python" ≤
      assessMigrationReadinessScore [0] 0 [] "python" :=
  ⟨⟨by norm_num [avgComplexityOf], by norm_num [avgComplexityOf]⟩,
    assess_migration_readiness_bounded_monotone.2 [30] [0] 0 [] "python"
      (by norm_num [avgComplexityOf]) (by norm_num [avgComplexityOf])⟩

end SamAnalyzer

/-! ## Progress tracker (`src/jerryrig/monitoring/progress_tracker.py`)

The workflow registry is a dict keyed by correlation id.
`update_workflow_status` overwrites the status of any registered
workflow unconditionally; `fail_workflow` records the error and then
calls `update_workflow_status` with `FAILED`.  Wall-clock times are
modeled as `Nat` parameters; the event log and metrics are not needed
by the claims and are omitted. -/

namespace ProgressTracker

/-- Status values of the `WorkflowStatus` enum. -/
inductive WorkflowStatus where
  | pending | chunking | analyzing | migrating | aggregating
  | completed | failed | cancelled
deriving Repr, DecidableEq

/-- The terminal statuses named by the spec (`completed`, `failed`,
`cancelled`). -/
def WorkflowStatus.isTerminal : WorkflowStatus → Bool
  | .completed | .failed | .cancelled => true
  | _ => false

/-- The per-workflow record (the slice of the workflow dict the claims
touch). -/
structure Workflow where
  status : WorkflowStatus
  errorMsg : Option String
  completionTime : Option Nat
  lastUpdate : Option Nat
deriving Repr, DecidableEq

/-- The tracker's `workflows` registry. -/
abbrev Tracker := List (String × Workflow)

/-- Replace the record stored under an existing correlation id
(Python dict item assignment for a present key). -/
def setWorkflow (t : Tracker) (cid : String) (w : Workflow) : Tracker :=
  t.map fun p => if p.1 = cid then (cid, w) else p

/-- Model of `ProgressTracker.start_workflow`: registers a fresh `PENDING`
record under the correlation id. -/
def startWorkflow (t : Tracker) (cid : String) : Tracker :=
  t ++ [(cid, { status := .pending, errorMsg := none,
                completionTime := none, lastUpdate := none })]

/-- Model of `ProgressTracker.update_workflow_status`: a missing correlation id
is a logged no-op; otherwise the status is overwritten
unconditionally, `last_update` is stamped, and `completion_time` is
stamped only when the new status is `COMPLETED`. -/
def updateWorkflowStatus (t : Tracker) (cid : String) (status : WorkflowStatus)
    (now : Nat) : Tracker :=
  match t.lookup cid with
  | none => t
  | some w =>
    setWorkflow t cid
      { w with
        status := status
        lastUpdate := some now
        completionTime :=
          if status = .completed then some now else w.completionTime }

/-- Model of `ProgressTracker.fail_workflow`: a missing correlation id is a
no-op; otherwise the error and completion time are recorded and the
status is driven to `FAILED` via `update_workflow_status`. -/
def failWorkflow (t : Tracker) (cid : String) (err : String) (now : Nat) : Tracker :=
  match t.lookup cid with
  | none => t
  | some w =>
    updateWorkflowStatus
      (setWorkflow t cid { w with errorMsg := some err, completionTime := some now })
      cid .failed now

theorem lookup_setWorkflow (t : Tracker) (cid : String) (w w' : Workflow)
    (h : t.lookup cid = some w) :
    (setWorkflow t cid w').lookup cid = some w' := by
  induction t with
  | nil => simp [List.lookup] at h
  | cons p ps ih =>
    rcases p with ⟨a, b⟩
    by_cases hp : a = cid
    · subst hp
      have hset : setWorkflow ((a, b) :: ps) a w' = (a, w') :: setWorkflow ps a w' := by
        simp [setWorkflow]
      rw [hset]
      simp [List.lookup]
    · have hset : setWorkflow ((a, b) :: ps) cid w' = (a, b) :: setWorkflow ps cid w' := by
        simp [setWorkflow, hp]
      have hb : (cid == a) = false :=
        beq_eq_false_iff_ne.mpr (Ne.symm hp)
      rw [hset]
      simp only [List.lookup, hb] at h ⊢
      exact ih h

/-- C5 amended (first half of the claim): for every registered
workflow in a non-terminal status, `fail_workflow` succeeds and leaves
the workflow registered with the terminal status `failed`. -/
theorem fail_workflow_terminal (t : Tracker) (cid : String) (err : String)
    (now : Nat) (w : Workflow)
    (hreg : t.lookup cid = some w)
    (_hnt : w.status.isTerminal = false) :
    ((failWorkflow t cid err now).lookup cid).map (·.status) = some .failed ∧
      WorkflowStatus.isTerminal .failed = true := by
  have h1 : (setWorkflow t cid
        { w with errorMsg := some err, completionTime := some now }).lookup cid
      = some { w with errorMsg := some err, completionTime := some now } :=
    lookup_setWorkflow t cid w _ hreg
  refine ⟨?_, rfl⟩
  unfold failWorkflow updateWorkflowStatus
  simp only [hreg, h1]
  rw [lookup_setWorkflow _ cid _ _ h1]
  rfl

/-- Witness for `fail_workflow_terminal` on a freshly started
workflow. -/
theorem fail_workflow_terminal_witness :
    ((startWorkflow ([] : Tracker) "wf-1").lookup "wf-1"
        = some { status := .pending, errorMsg := none,
                 completionTime := none, lastUpdate := none } ∧
      WorkflowStatus.isTerminal .pending = false) ∧
    (((failWorkflow (startWorkflow ([] : Tracker) "wf-1") "wf-1" "boom" 7).lookup
          "wf-1").map (·.status) = some .failed ∧
      WorkflowStatus.isTerminal .failed = true) :=
  ⟨⟨by decide, by decide⟩,
    fail_workflow_terminal (startWorkflow ([] : Tracker) "wf-1") "wf-1" "boom" 7
      { status := .pending, errorMsg := none,
        completionTime := none, lastUpdate := none }
      (by decide) (by decide)⟩

/-- C5 counterexample (second half of the claim): terminal statuses
are not guarded — after `fail_workflow`, a further
`update_workflow_status` call is accepted and moves the workflow back
to the non-terminal status `pending`. -/
theorem update_after_fail_reverts_to_pending :
    (((updateWorkflowStatus
          (failWorkflow (startWorkflow ([] : Tracker) "wf-1") "wf-1" "boom" 7)
          "wf-1" .pending 8)).lookup "wf-1").map (·.status) = some .pending ∧
      WorkflowStatus.isTerminal .pending = false :=
  ⟨by decide, by decide⟩

end ProgressTracker

/-! ## SAM repository-input stage (`sam_project/agents/repository_input.py`)

`process` validates that the request carries both `repository_url` and
`target_language` (raising, inside a `try` that converts every
exception into a `status: "failed"` response), then infers
`operation_type` as `"migration"` exactly when `target_language` is
present.  Request dict fields are modeled as `Option` values; the
wall-clock time used for the default correlation id is a `Nat`
parameter. -/

namespace RepositoryInput

/-- The five-key options dict (each key optionally supplied by the
caller; `{**default_options, **options}` keeps the caller's value for
every supplied key). -/
structure RequestOptions where
  preserveStructure : Option Bool
  includeTests : Option Bool
  includeDocs : Option Bool
  chunkSize : Option Nat
  maxFileSize : Option Nat
deriving Repr, DecidableEq

/-- Merged options: defaults `{preserve_structure: true, include_tests:
true, include_docs: false, chunk_size: 50, max_file_size: 1048576}`
overridden by any caller-supplied key. -/
structure MergedOptions where
  preserveStructure : Bool
  includeTests : Bool
  includeDocs : Bool
  chunkSize : Nat
  maxFileSize : Nat
deriving Repr, DecidableEq

/-- Model of `{**default_options, **options}`. -/
def mergeOptions (o : Option RequestOptions) : MergedOptions :=
  match o with
  | none =>
    { preserveStructure := true, includeTests := true, includeDocs := false,
      chunkSize := 50, maxFileSize := 1048576 }
  | some o =>
    { preserveStructure := o.preserveStructure.getD true
      includeTests := o.includeTests.getD true
      includeDocs := o.includeDocs.getD false
      chunkSize := o.chunkSize.getD 50
      maxFileSize := o.maxFileSize.getD 1048576 }

/-- The inbound request dict (`input_data['request']`); absent keys are
`none`. -/
structure Request where
  repositoryUrl : Option String
  targetLanguage : Option String
  correlationId : Option String
  sourceLanguage : Option String
  options : Option RequestOptions
deriving Repr, DecidableEq

/-- The enriched request assembled on the success path. -/
structure EnrichedRequest where
  repositoryUrl : String
  targetLanguage : String
  correlationId : String
  sourceLanguage : String
  operationType : String
  status : String
  options : MergedOptions
deriving Repr, DecidableEq

/-- The stage's output record. -/
structure Output where
  status : String
  operationType : Option String
  errorMsg : Option String
  enriched : Option EnrichedRequest
deriving Repr, DecidableEq

/-- The body of `process` up to its `except` clause, with `raise`
modeled as `Except.error`. -/
def processBody (input : Option Request) (now : Nat) : Except String Output :=
  match input with
  | none => .error "No request found in input data"
  | some request =>
    if request.repositoryUrl.isNone then
      .error "Missing required field: repository_url"
    else if request.targetLanguage.isNone then
      .error "Missing required field: target_language"
    else
      let operationType :=
        if request.targetLanguage.isSome then "migration" else "analysis"
      .ok
        { status := "validated"
          operationType := some operationType
          errorMsg := none
          enriched := some
            { repositoryUrl := request.repositoryUrl.getD ""
              targetLanguage := request.targetLanguage.getD ""
              correlationId := request.correlationId.getD ("req_" ++ toString now)
              sourceLanguage := request.sourceLanguage.getD "auto-detect"
              operationType := operationType
              status := "received"
              options := mergeOptions request.options } }

/-- Model of `process` of `repository_input.py`: the whole body runs inside
`try`, and every exception becomes a `status: "failed"` response. -/
def process (input : Option Request) (now : Nat) : Output :=
  match processBody input now with
  | .ok out => out
  | .error e =>
    { status := "failed", operationType := none, errorMsg := some e, enriched := none }

/-- C10: `process` never raises (it is total by construction, every
failure being folded into a `status: "failed"` record), and whenever
it reports `status: "validated"` the operation type is `"migration"` —
the `"analysis"` branch is unreachable because a missing
`target_language` already fails validation. -/
theorem repository_input_analysis_unreachable (input : Option Request) (now : Nat) :
    ((process input now).status = "validated" →
      (process input now).operationType = some "migration") ∧
    ((process input now).status = "validated" ∨ (process input now).status = "failed") := by
  match input with
  | none =>
    exact ⟨fun h => by simp [process, processBody] at h, Or.inr rfl⟩
  | some request =>
    match hu : request.repositoryUrl, ht : request.targetLanguage with
    | none, _ =>
      constructor
      · intro h
        simp [process, processBody, hu] at h
      · right
        simp [process, processBody, hu]
    | some u, none =>
      constructor
      · intro h
        simp [process, processBody, hu, ht] at h
      · right
        simp [process, processBody, hu, ht]
    | some u, some tl =>
      constructor
      · intro _
        simp [process, processBody, hu, ht]
      · left
        simp [process, processBody, hu, ht]

/-- Witness for `repository_input_analysis_unreachable` on a complete
request. -/
theorem repository_input_analysis_unreachable_witness :
    (process (some { repositoryUrl := some "https://github.com/u/r",
                     targetLanguage := some "javascript",
                     correlationId := none, sourceLanguage := none,
                     options := none }) 0).status = "validated" ∧
    (process (some { repositoryUrl := some "https://github.com/u/r",
                     targetLanguage := some "javascript",
                     correlationId := none, sourceLanguage := none,
                     options := none }) 0).operationType = some "migration" :=
  ⟨by decide,
    (repository_input_analysis_unreachable
      (some { repositoryUrl := some "https://github.com/u/r",
              targetLanguage := some "javascript",
              correlationId := none, sourceLanguage := none,
              options := none }) 0).1 (by decide)⟩

end RepositoryInput

/-! ## Python string primitives

Executable models of the Python string operations the embedded code
uses.  Strings are treated through their character lists; texts are
assumed to use `\n` newlines (the only newline convention appearing in
the claims' inputs). -/

namespace PyStr

/-- The ASCII whitespace characters stripped by Python's `str.strip()`. -/
def isPySpace (c : Char) : Bool :=
  c = ' ' ∨ c = '\t' ∨ c = '\n' ∨ c = '\r' ∨ c = '\x0b' ∨ c = '\x0c'

/-- Python `s.startswith(pat)`. -/
def pyStartsWith (s pat : String) : Bool :=
  pat.data.isPrefixOf s.data

/-- Python `str.strip()` on a character list. -/
def stripChars (cs : List Char) : List Char :=
  ((cs.dropWhile isPySpace).reverse.dropWhile isPySpace).reverse

/-- Python `s.strip()`. -/
def pyStrip (s : String) : String :=
  ⟨stripChars s.data⟩

/-- Worker for `splitNl`: accumulates the current line (reversed). -/
def splitNlGo : List Char → List Char → List (List Char)
  | [], acc => [acc.reverse]
  | c :: rest, acc =>
    if c = '\n' then acc.reverse :: splitNlGo rest []
    else splitNlGo rest (c :: acc)

/-- Python `s.split('\n')`. -/
def splitNl (s : String) : List String :=
  (splitNlGo s.data []).map String.mk

/-- Python `s.splitlines()` for `\n`-newline texts: empty string gives
`[]`, and a trailing newline does not contribute a final empty line. -/
def pySplitlines (s : String) : List String :=
  if s = "" then []
  else if s.data.getLast? = some '\n' then (splitNl s).dropLast
  else splitNl s

/-- Python `'\n'.join(lines)`. -/
def joinNl : List String → String
  | [] => ""
  | [x] => x
  | x :: xs => x ++ "\n" ++ joinNl xs

/-- Python `pat in s` for a non-empty literal `pat`, on character
lists. -/
def containsSubChars : List Char → List Char → Bool
  | [], pat => pat.isEmpty
  | c :: cs, pat => pat.isPrefixOf (c :: cs) || containsSubChars cs pat

/-- Python `pat in s`. -/
def containsSub (s pat : String) : Bool :=
  containsSubChars s.data pat.data

/-- Worker for `countOccs` (fuel-driven; the fuel is the remaining
text length, sufficient because the non-empty pattern consumes at
least one character per match). -/
def countOccsGo : Nat → List Char → List Char → Nat
  | 0, _, _ => 0
  | _ + 1, [], _ => 0
  | f + 1, c :: cs, pat =>
    if pat.isPrefixOf (c :: cs) then
      1 + countOccsGo f ((c :: cs).drop (max 1 pat.length)) pat
    else countOccsGo f cs pat

/-- Python `s.count(pat)` (left-to-right, non-overlapping) for the
non-empty literal patterns used by the source. -/
def countOccs (s pat : String) : Nat :=
  countOccsGo s.data.length s.data pat.data

end PyStr

/-! ## AI agent interface (`src/jerryrig/agents/solace_agent.py`)

`SolaceAgent` resolves a provider from the API key's literal prefix,
dispatches `migrate_code` to that provider, and downgrades every
request failure to a deterministic mock response.  The outcome of the
provider's network call is modeled as an `Except` oracle: `.ok r` is
the record the provider call built from a successful HTTP response,
`.error` is any raised request/parse exception. -/

namespace SolaceAgent

open PyStr

/-- The dict returned by `migrate_code` and the mock generators. -/
structure AgentResult where
  success : Bool
  migratedCode : String
  confidence : ℚ
  warnings : List String
  errors : List String
  suggestions : List String
deriving Repr, DecidableEq

/-- Model of `SolaceAgent._detect_provider`.  `not self.api_key` is also true
for an empty-string key, hence the explicit `""` case.  Note the
source checks `sk-` *before* `sk-ant-`. -/
def detectProvider : Option String → String
  | none => "mock"
  | some k =>
    if k = "" then "mock"
    else if pyStartsWith k "eyJ" then "solace_sam"
    else if pyStartsWith k "sk-" then "openai"
    else if pyStartsWith k "sk-ant-" then "anthropic"
    else "unknown"

/-- C4: evaluating `_detect_provider` at an Anthropic-format key.
The `sk-` check precedes the `sk-ant-` check, so every `sk-ant-` key
is routed to the OpenAI provider and the `anthropic` branch is
unreachable (the class's `_anthropic_migration` method can never be
selected). -/
theorem detect_provider_sk_ant_key_is_openai :
    detectProvider (some "sk-ant-api03-test") = "openai" ∧
      detectProvider (some "sk-ant-api03-test") ≠ "anthropic" := by
  decide

/-- Model of `SolaceAgent._python_to_javascript_mock`. -/
def pythonToJavascriptMock (pythonCode : String) : String :=
  let js := pythonCode
  let js := js.replace "def " "function "
  let js := js.replace ":" " \x7b"
  let js := js.replace "True" "true"
  let js := js.replace "False" "false"
  let js := js.replace "None" "null"
  let js := js.replace "print(" "console.log("
  "// Converted from Python\n" ++ js ++ "\n// End conversion"

/-- Model of `SolaceAgent._javascript_to_python_mock`. -/
def javascriptToPythonMock (jsCode : String) : String :=
  let py := jsCode
  let py := py.replace "function " "def "
  let py := py.replace "true" "True"
  let py := py.replace "false" "False"
  let py := py.replace "null" "None"
  let py := py.replace "console.log(" "print("
  "# Converted from JavaScript\n" ++ py ++ "\n# End conversion"

/-- Model of `SolaceAgent._python_to_java_mock`. -/
def pythonToJavaMock (pythonCode : String) : String :=
  "// Converted from Python\npublic class ConvertedCode \x7b\n    // "
    ++ pythonCode ++ "\n\x7d"

/-- Model of `SolaceAgent._java_to_python_mock`. -/
def javaToPythonMock (javaCode : String) : String :=
  "# Converted from Java\n# " ++ javaCode ++ "\npass"

/-- Model of `SolaceAgent._mock_migration_response`: the four-entry
language-pair table, generic comment-banner passthrough otherwise,
fixed confidence `0.75`. -/
def mockMigrationResponse (sourceCode sourceLanguage targetLanguage : String) :
    AgentResult :=
  let migratedCode :=
    if sourceLanguage = "python" ∧ targetLanguage = "javascript" then
      pythonToJavascriptMock sourceCode
    else if sourceLanguage = "javascript" ∧ targetLanguage = "python" then
      javascriptToPythonMock sourceCode
    else if sourceLanguage = "python" ∧ targetLanguage = "java" then
      pythonToJavaMock sourceCode
    else if sourceLanguage = "java" ∧ targetLanguage = "python" then
      javaToPythonMock sourceCode
    else
      "// Migrated from " ++ sourceLanguage ++ " to " ++ targetLanguage ++ "\n"
        ++ sourceCode
  { success := true
    migratedCode := migratedCode
    confidence := 0.75
    warnings := ["This is a mock migration for development purposes"]
    errors := []
    suggestions := ["Consider optimizing for " ++ targetLanguage ++ " idioms"] }

/-- Model of `re.sub(r'f"([^\x22]*)"', backtick-template, s)` from
`_python_to_js_enhanced`, scanning left to right (fuel-driven over the
remaining length). -/
def fStringSubGo : Nat → List Char → List Char
  | 0, cs => cs
  | _ + 1, [] => []
  | f + 1, c :: cs =>
    if c = 'f' then
      match cs with
      | '"' :: rest =>
        let inner := rest.takeWhile (· ≠ '"')
        match rest.drop inner.length with
        | '"' :: tail =>
          Char.ofNat 96 :: (inner ++ Char.ofNat 96 :: fStringSubGo f tail)
        | _ => c :: fStringSubGo f cs
      | _ => c :: fStringSubGo f cs
    else c :: fStringSubGo f cs

/-- String wrapper for `fStringSubGo`. -/
def fStringSub (s : String) : String :=
  ⟨fStringSubGo s.data.length s.data⟩

/-- Model of `re.sub` of backtick template literals to `f"..."` strings from
`_js_to_python_enhanced`. -/
def backtickSubGo : Nat → List Char → List Char
  | 0, cs => cs
  | _ + 1, [] => []
  | f + 1, c :: cs =>
    if c = Char.ofNat 96 then
      let inner := cs.takeWhile (· ≠ Char.ofNat 96)
      match cs.drop inner.length with
      | b :: tail =>
        if b = Char.ofNat 96 then
          'f' :: '"' :: (inner ++ '"' :: backtickSubGo f tail)
        else c :: backtickSubGo f cs
      | _ => c :: backtickSubGo f cs
    else c :: backtickSubGo f cs

/-- String wrapper for `backtickSubGo`. -/
def backtickSub (s : String) : String :=
  ⟨backtickSubGo s.data.length s.data⟩

/-- String of `n` spaces. -/
def spaces (n : Nat) : String :=
  ⟨List.replicate n ' '⟩

/-- The re-indentation loop of `_python_to_js_enhanced` (indent level
grows after a `function ` line, shrinks at a bare `\x7d` line, floored
at 0). -/
def enhanceIndentLoop : List String → Nat → List String
  | [], _ => []
  | line :: rest, ind =>
    let stripped := pyStrip line
    if stripped ≠ "" then
      if containsSub stripped "function " then
        (spaces (ind * 4) ++ stripped) :: enhanceIndentLoop rest (ind + 1)
      else if stripped = "\x7d" then
        (spaces ((ind - 1) * 4) ++ "\x7d") :: enhanceIndentLoop rest (ind - 1)
      else
        (spaces (ind * 4) ++ stripped) :: enhanceIndentLoop rest ind
    else "" :: enhanceIndentLoop rest ind

/-- Model of `SolaceAgent._python_to_js_enhanced`. -/
def pythonToJsEnhanced (pythonCode : String) : String :=
  let js := pythonCode
  let js := js.replace "def " "function "
  let js := js.replace ":" " \x7b"
  let js := js.replace "True" "true"
  let js := js.replace "False" "false"
  let js := js.replace "None" "null"
  let js := js.replace "print(" "console.log("
  let js := fStringSub js
  let js := js.replace "\x7b" "$\x7b"
  let processed := enhanceIndentLoop (splitNl js) 0
  let functionCount := countOccs js "function "
  let braceCount := countOccs js "\x7d"
  let closing := List.replicate (functionCount - braceCount) "\x7d"
  "// Enhanced migration from Python to JavaScript\n"
    ++ joinNl (processed ++ closing)

/-- Model of `SolaceAgent._js_to_python_enhanced`. -/
def jsToPythonEnhanced (jsCode : String) : String :=
  let py := jsCode
  let py := py.replace "function " "def "
  let py := py.replace " \x7b" ":"
  let py := py.replace "\x7d" ""
  let py := py.replace "true" "True"
  let py := py.replace "false" "False"
  let py := py.replace "null" "None"
  let py := py.replace "console.log(" "print("
  let py := backtickSub py
  let py := py.replace "$\x7b" "\x7b"
  "# Enhanced migration from JavaScript to Python\n" ++ py

/-- Model of `SolaceAgent._enhanced_solace_mock`: fixed confidence `0.82` and
the python↔javascript enhanced translators, comment-banner
passthrough otherwise. -/
def enhancedSolaceMock (sourceCode sourceLanguage targetLanguage : String) :
    AgentResult :=
  let migratedCode :=
    if sourceLanguage = "python" ∧ targetLanguage = "javascript" then
      pythonToJsEnhanced sourceCode
    else if sourceLanguage = "javascript" ∧ targetLanguage = "python" then
      jsToPythonEnhanced sourceCode
    else
      "// Enhanced migration from " ++ sourceLanguage ++ " to " ++ targetLanguage
        ++ "\n" ++ sourceCode
  { success := true
    migratedCode := migratedCode
    confidence := 0.82
    warnings := ["Using enhanced mock migration - connect to Solace SAM for full capabilities"]
    errors := []
    suggestions :=
      ["Consider using " ++ targetLanguage ++ "-specific patterns and idioms",
       "Review the migrated code for optimization opportunities",
       "Test thoroughly in your target environment"] }

/-- Model of `SolaceAgent.migrate_code`: the missing/empty key goes straight to
the basic mock; otherwise the detected provider's call runs inside a
`try` whose `except` substitutes the basic mock, while the
`solace_sam` call catches its own request failures and substitutes the
enhanced mock. -/
def migrateCode (apiKey : Option String) (net : Except String AgentResult)
    (sourceCode sourceLanguage targetLanguage : String) : AgentResult :=
  match apiKey with
  | none => mockMigrationResponse sourceCode sourceLanguage targetLanguage
  | some key =>
    if key = "" then mockMigrationResponse sourceCode sourceLanguage targetLanguage
    else if detectProvider (some key) = "solace_sam" then
      match net with
      | .ok r => r
      | .error _ => enhancedSolaceMock sourceCode sourceLanguage targetLanguage
    else
      match net with
      | .ok r => r
      | .error _ => mockMigrationResponse sourceCode sourceLanguage targetLanguage

theorem append_ne_empty (a b : String) (ha : a ≠ "") : a ++ b ≠ "" := by
  intro h
  apply ha
  have hd := congrArg String.data h
  rw [String.data_append] at hd
  have hnil : a.data = [] ∧ b.data = [] := List.append_eq_nil.mp (by simpa using hd)
  cases a
  simp_all

theorem mock_migration_response_nonempty (sourceCode sourceLanguage targetLanguage : String) :
    (mockMigrationResponse sourceCode sourceLanguage targetLanguage).migratedCode ≠ "" := by
  unfold mockMigrationResponse
  dsimp only
  split_ifs
  · exact append_ne_empty _ _ (append_ne_empty _ _ (by decide))
  · exact append_ne_empty _ _ (append_ne_empty _ _ (by decide))
  · exact append_ne_empty _ _ (append_ne_empty _ _ (by decide))
  · exact append_ne_empty _ _ (append_ne_empty _ _ (by decide))
  · exact append_ne_empty _ _ (append_ne_empty _ _ (append_ne_empty _ _
      (append_ne_empty _ _ (append_ne_empty _ _ (by decide)))))

/-- C1: with no API key configured, `migrate_code` always returns the
mock response — `success: true` with non-empty `migrated_code` — for
every input; and with any key, a raised request failure is replaced by
the basic mock (or, on the `solace_sam` path, the enhanced mock)
rather than propagating.  Totality of `migrateCode` is the model of
"never propagates an exception". -/
theorem migrate_code_never_raises (sourceCode sourceLanguage targetLanguage : String)
    (net : Except String AgentResult) (e : String) :
    ((migrateCode none net sourceCode sourceLanguage targetLanguage).success = true ∧
      (migrateCode none net sourceCode sourceLanguage targetLanguage).migratedCode ≠ "") ∧
    (∀ key : String,
      migrateCode (some key) (.error e) sourceCode sourceLanguage targetLanguage
          = mockMigrationResponse sourceCode sourceLanguage targetLanguage ∨
        migrateCode (some key) (.error e) sourceCode sourceLanguage targetLanguage
          = enhancedSolaceMock sourceCode sourceLanguage targetLanguage) := by
  refine ⟨⟨rfl, mock_migration_response_nonempty _ _ _⟩, ?_⟩
  intro key
  by_cases hk : key = ""
  · left; simp [migrateCode, hk]
  · by_cases hp : detectProvider (some key) = "solace_sam"
    · right; simp [migrateCode, hk, hp]
    · left; simp [migrateCode, hk, hp]

end SolaceAgent

/-! ## Core migration engine (`src/jerryrig/core/migrator.py`)

`CodeMigrator.__init__` binds `self.analyzer = RepositoryParser()`
(from `src/jerryrig/core/analyzer.py`, also aliased as
`CodeAnalyzer = RepositoryParser`), and the directory branch of
`migrate_code` calls `self.analyzer.analyze_repository(...)` inside
`_create_migration_plan`.  Python resolves the attribute at call time,
so the embedding models the attribute lookup against the list of
methods `RepositoryParser` actually defines. -/

namespace Migrator

open PyStr

/-- ASCII `str.lower()` on one character. -/
def asciiLower (c : Char) : Char :=
  if 'A' ≤ c ∧ c ≤ 'Z' then Char.ofNat (c.toNat + 32) else c

/-- Python `s.lower()` for ASCII text. -/
def strToLower (s : String) : String :=
  ⟨s.data.map asciiLower⟩

/-- Model of `CodeMigrator.SUPPORTED_LANGUAGES`. -/
def supportedLanguages : List String :=
  ["python", "javascript", "typescript", "java", "cpp", "c",
   "csharp", "go", "rust", "ruby", "php", "swift", "kotlin"]

/-- The methods the `RepositoryParser` class of
`src/jerryrig/core/analyzer.py` defines (it is the object bound as
`self.analyzer`, and `CodeAnalyzer` is an alias for it). -/
def repositoryParserMethods : List String :=
  ["__init__", "parse_gitingest_output", "download_repository_zip",
   "extract_repository_zip", "get_source_files", "create_repository_package",
   "_split_gitingest_sections", "_extract_repository_url", "_extract_file_count",
   "_extract_token_count", "_analyze_languages_from_content",
   "analyze_repository_async", "cleanup"]

/-- Python attribute lookup on the `RepositoryParser` analyzer
instance: a name the class does not define raises `AttributeError`. -/
def analyzerAttr (name : String) : Except String Unit :=
  if name ∈ repositoryParserMethods then .ok ()
  else .error ("AttributeError: 'RepositoryParser' object has no attribute '"
    ++ name ++ "'")

/-- Whether `migrate_code`'s `source_path` is an existing file or a
directory (the two branches of the source). -/
inductive PathKind where
  | file
  | directory
deriving Repr, DecidableEq

/-- Model of `CodeMigrator._create_migration_plan`: its first statement is
`analysis = self.analyzer.analyze_repository(str(source_path))`, whose
attribute lookup fails for every input (the remainder of the plan
construction is unreachable and therefore not modeled further). -/
def createMigrationPlan : Except String Unit := do
  let _ ← analyzerAttr "analyze_repository"
  pure ()

/-- Model of `CodeMigrator.migrate_code`: unsupported target raises
`ValueError`; a file input runs `_migrate_single_file` (which catches
its own exceptions and returns a failed result instead of raising)
and returns the output directory; a directory input builds the
migration plan, whose failure is logged and re-raised by the
`except`/`raise` block. -/
def migrateCode (sourcePath : PathKind) (targetLanguage : String)
    (outputDir : String := "./migrated") : Except String String :=
  if strToLower targetLanguage ∉ supportedLanguages then
    .error ("ValueError: Unsupported target language: " ++ targetLanguage)
  else
    match sourcePath with
    | .file => .ok outputDir
    | .directory => do
      let _ ← createMigrationPlan
      pure outputDir

/-- C2: for every supported target language, the directory branch of
`migrate_code` raises `AttributeError` — the bound analyzer class
defines no `analyze_repository` method — while the single-file branch
returns the output path. -/
theorem migrate_code_directory_attribute_error (targetLanguage : String)
    (hsup : strToLower targetLanguage ∈ supportedLanguages) :
    migrateCode PathKind.directory targetLanguage =
      .error ("AttributeError: 'RepositoryParser' object has no attribute 'analyze_repository'") ∧
    migrateCode PathKind.file targetLanguage = .ok "./migrated" ∧
    "analyze_repository" ∉ repositoryParserMethods := by
  refine ⟨?_, ?_, by decide⟩
  · simp only [migrateCode, hsup, not_true, if_false]
    rfl
  · simp only [migrateCode, hsup, not_true, if_false]

/-- Witness for `migrate_code_directory_attribute_error` at the
`python` target. -/
theorem migrate_code_directory_attribute_error_witness :
    strToLower "python" ∈ supportedLanguages ∧
    migrateCode PathKind.directory "python" =
      .error ("AttributeError: 'RepositoryParser' object has no attribute 'analyze_repository'") :=
  ⟨by decide,
    (migrate_code_directory_attribute_error "python" (by decide)).1⟩

end Migrator

/-! ## GitIngest digest serialization and parsing
(`src/jerryrig/core/scraper.py` and `src/jerryrig/core/analyzer.py`)

`GitIngestScraper.save_to_file` writes the three-banner text file;
`RepositoryParser._split_gitingest_sections` splits it back into
sections.  A text is modeled by its `'\n'`-split line list (a
bijection between strings and non-empty line lists): a chunk written
as `text + "\n"` contributes `split(text)` to the file's line list,
and the file's final newline contributes one trailing empty line. -/

namespace GitIngest

open PyStr

/-- The 80-character `=` banner. -/
def bar80 : String := ⟨List.replicate 80 '='⟩

/-- The 40-character `-` separator. -/
def dash40 : String := ⟨List.replicate 40 '-'⟩

/-- Model of `save_to_file` as a line list: header banners, then for each
truthy (non-empty-string) section its header line, its `-` separator,
its own lines, and — for the summary and directory sections — the
blank line from the `"\n\n"` terminator; the file's closing newline
adds one final empty line. -/
def saveToFileLines (summary directoryStructure fileContents : List String) :
    List String :=
  [bar80, "GITINGEST RESULTS", bar80, ""]
    ++ (if summary ≠ [""] then ["SUMMARY:", dash40] ++ summary ++ [""] else [])
    ++ (if directoryStructure ≠ [""] then
          ["DIRECTORY STRUCTURE:", dash40] ++ directoryStructure ++ [""] else [])
    ++ (if fileContents ≠ [""] then ["FILE CONTENTS:", dash40] ++ fileContents else [])
    ++ [""]

/-- The three section keys of `_split_gitingest_sections`. -/
inductive SectionKey where
  | summary
  | directoryStructure
  | fileContents
deriving Repr, DecidableEq

/-- The sections dict (`None` = key never assigned). -/
structure Sections where
  summary : Option (List String)
  directoryStructure : Option (List String)
  fileContents : Option (List String)
deriving Repr, DecidableEq

/-- Model of `sections[current_section] = '\n'.join(current_content)` (a later
assignment to the same key overwrites the earlier one, as in a Python
dict). -/
def setSection (out : Sections) : SectionKey → List String → Sections
  | .summary, acc => { out with summary := some acc }
  | .directoryStructure, acc => { out with directoryStructure := some acc }
  | .fileContents, acc => { out with fileContents := some acc }

/-- Flush the current section's accumulated content, if any. -/
def flushSection (out : Sections) (cur : Option SectionKey) (acc : List String) :
    Sections :=
  match cur with
  | none => out
  | some sec => setSection out sec acc

/-- The line loop of `_split_gitingest_sections`: a line starting with
a section header begins that section (flushing the previous one);
inside a section, every line not starting with 40 dashes is content;
anything before the first header is dropped. -/
def splitLoop : List String → Option SectionKey → List String → Sections → Sections
  | [], cur, acc, out => flushSection out cur acc
  | line :: rest, cur, acc, out =>
    if pyStartsWith line "SUMMARY:" then
      splitLoop rest (some .summary) [] (flushSection out cur acc)
    else if pyStartsWith line "DIRECTORY STRUCTURE:" then
      splitLoop rest (some .directoryStructure) [] (flushSection out cur acc)
    else if pyStartsWith line "FILE CONTENTS:" then
      splitLoop rest (some .fileContents) [] (flushSection out cur acc)
    else if cur.isSome ∧ ¬ pyStartsWith line dash40 then
      splitLoop rest cur (acc ++ [line]) out
    else
      splitLoop rest cur acc out

/-- Model of `RepositoryParser._split_gitingest_sections` over a line list. -/
def splitGitingestSections (lines : List String) : Sections :=
  splitLoop lines none [] ⟨none, none, none⟩

/-- A line that the parser treats as plain content: it starts with no
section header and not with the 40-dash separator. -/
def contentLine (l : String) : Prop :=
  pyStartsWith l "SUMMARY:" = false ∧
  pyStartsWith l "DIRECTORY STRUCTURE:" = false ∧
  pyStartsWith l "FILE CONTENTS:" = false ∧
  pyStartsWith l dash40 = false

instance (l : String) : Decidable (contentLine l) := by
  unfold contentLine
  exact inferInstance

theorem splitLoop_content (content : List String)
    (hc : ∀ l ∈ content, contentLine l) (rest : List String)
    (sec : SectionKey) (acc : List String) (out : Sections) :
    splitLoop (content ++ rest) (some sec) acc out
      = splitLoop rest (some sec) (acc ++ content) out := by
  induction content generalizing acc with
  | nil => simp
  | cons l ls ih =>
    have hl := hc l (by simp)
    obtain ⟨h1, h2, h3, h4⟩ := hl
    rw [List.cons_append, splitLoop]
    simp only [h1, h2, h3, h4, Bool.false_eq_true, if_false, Option.isSome_some,
      true_and, not_false_eq_true, if_true]
    rw [ih (fun l hl => hc l (by simp [hl]))]
    simp

theorem splitLoop_content_single (l : String) (hl : contentLine l)
    (rest : List String) (sec : SectionKey) (acc : List String) (out : Sections) :
    splitLoop (l :: rest) (some sec) acc out
      = splitLoop rest (some sec) (acc ++ [l]) out := by
  have h := splitLoop_content [l] (fun x hx => by
    rcases List.mem_singleton.mp hx with rfl; exact hl) rest sec acc out
  simpa using h

theorem splitLoop_skip_none (l : String)
    (h1 : pyStartsWith l "SUMMARY:" = false)
    (h2 : pyStartsWith l "DIRECTORY STRUCTURE:" = false)
    (h3 : pyStartsWith l "FILE CONTENTS:" = false)
    (rest acc : List String) (out : Sections) :
    splitLoop (l :: rest) none acc out = splitLoop rest none acc out := by
  rw [splitLoop]
  simp [h1, h2, h3]

theorem splitLoop_skip_dash (rest : List String) (sec : SectionKey)
    (acc : List String) (out : Sections) :
    splitLoop (dash40 :: rest) (some sec) acc out
      = splitLoop rest (some sec) acc out := by
  rw [splitLoop]
  have h1 : pyStartsWith dash40 "SUMMARY:" = false := by decide
  have h2 : pyStartsWith dash40 "DIRECTORY STRUCTURE:" = false := by decide
  have h3 : pyStartsWith dash40 "FILE CONTENTS:" = false := by decide
  have h4 : pyStartsWith dash40 dash40 = true := by decide
  simp [h1, h2, h3, h4]

theorem splitLoop_header_summary (rest : List String) (cur : Option SectionKey)
    (acc : List String) (out : Sections) :
    splitLoop ("SUMMARY:" :: rest) cur acc out
      = splitLoop rest (some .summary) [] (flushSection out cur acc) := by
  rw [splitLoop]
  have h1 : pyStartsWith "SUMMARY:" "SUMMARY:" = true := by decide
  simp [h1]

theorem splitLoop_header_dir (rest : List String) (cur : Option SectionKey)
    (acc : List String) (out : Sections) :
    splitLoop ("DIRECTORY STRUCTURE:" :: rest) cur acc out
      = splitLoop rest (some .directoryStructure) [] (flushSection out cur acc) := by
  rw [splitLoop]
  have h1 : pyStartsWith "DIRECTORY STRUCTURE:" "SUMMARY:" = false := by decide
  have h2 : pyStartsWith "DIRECTORY STRUCTURE:" "DIRECTORY STRUCTURE:" = true := by decide
  simp [h1, h2]

theorem splitLoop_header_fc (rest : List String) (cur : Option SectionKey)
    (acc : List String) (out : Sections) :
    splitLoop ("FILE CONTENTS:" :: rest) cur acc out
      = splitLoop rest (some .fileContents) [] (flushSection out cur acc) := by
  rw [splitLoop]
  have h1 : pyStartsWith "FILE CONTENTS:" "SUMMARY:" = false := by decide
  have h2 : pyStartsWith "FILE CONTENTS:" "DIRECTORY STRUCTURE:" = false := by decide
  have h3 : pyStartsWith "FILE CONTENTS:" "FILE CONTENTS:" = true := by decide
  simp [h1, h2, h3]

theorem stripChars_append_newline (cs : List Char) :
    stripChars (cs ++ ['\n']) = stripChars cs := by
  unfold stripChars
  rw [List.dropWhile_append]
  by_cases he : (cs.dropWhile isPySpace).isEmpty
  · rw [if_pos he]
    have hcs : cs.dropWhile isPySpace = [] := by
      simpa [List.isEmpty_iff] using he
    rw [hcs]
    rfl
  · rw [if_neg he]
    rw [List.reverse_append]
    have : ['\n'].reverse = ['\n'] := rfl
    rw [this]
    show ((('\n' :: (cs.dropWhile isPySpace).reverse).dropWhile isPySpace)).reverse = _
    rw [List.dropWhile_cons]
    have hnl : isPySpace '\n' = true := by decide
    rw [if_pos hnl]

theorem pyStrip_append_newline (s : String) :
    pyStrip (s ++ "\n") = pyStrip s := by
  unfold pyStrip
  have hd : (s ++ "\n").data = s.data ++ ['\n'] := String.data_append s "\n"
  rw [hd, stripChars_append_newline]

theorem joinNl_append_empty (x : List String) (hx : x ≠ []) :
    joinNl (x ++ [""]) = joinNl x ++ "\n" := by
  induction x with
  | nil => exact absurd rfl hx
  | cons a xs ih =>
    match xs with
    | [] =>
      show a ++ "\n" ++ "" = a ++ "\n"
      rw [String.append_empty]
    | b :: ys =>
      show a ++ "\n" ++ joinNl ((b :: ys) ++ [""]) = (a ++ "\n" ++ joinNl (b :: ys)) ++ "\n"
      rw [ih (by simp)]
      simp [String.append_assoc]

theorem stripJoin_append_empty (x : List String) :
    pyStrip (joinNl (x ++ [""])) = pyStrip (joinNl x) := by
  match x with
  | [] => rfl
  | a :: xs =>
    rw [joinNl_append_empty (a :: xs) (by simp), pyStrip_append_newline]

/-- C9 amended: serializing a triple of section texts (as line lists)
with `save_to_file` and parsing the result with
`_split_gitingest_sections` recovers each section's lines followed by
exactly one extra empty line (the serializer's own blank separator /
trailing newline), hence each section text is unchanged modulo
surrounding whitespace (`strip()` of the joined text agrees) —
provided each section is a non-empty text none of whose lines starts
with one of the three section headers or with the 40-dash banner.  The
unrestricted claim is refuted by
`gitingest_roundtrip_counterexample`. -/
theorem gitingest_roundtrip (s d f : List String)
    (hs : s ≠ [""]) (hd : d ≠ [""]) (hf : f ≠ [""])
    (hcs : ∀ l ∈ s, contentLine l) (hcd : ∀ l ∈ d, contentLine l)
    (hcf : ∀ l ∈ f, contentLine l) :
    splitGitingestSections (saveToFileLines s d f)
        = ⟨some (s ++ [""]), some (d ++ [""]), some (f ++ [""])⟩ ∧
      pyStrip (joinNl (s ++ [""])) = pyStrip (joinNl s) ∧
      pyStrip (joinNl (d ++ [""])) = pyStrip (joinNl d) ∧
      pyStrip (joinNl (f ++ [""])) = pyStrip (joinNl f) := by
  refine ⟨?_, stripJoin_append_empty s, stripJoin_append_empty d,
    stripJoin_append_empty f⟩
  unfold splitGitingestSections saveToFileLines
  rw [if_pos hs, if_pos hd, if_pos hf]
  have hb1 : pyStartsWith bar80 "SUMMARY:" = false := by decide
  have hb2 : pyStartsWith bar80 "DIRECTORY STRUCTURE:" = false := by decide
  have hb3 : pyStartsWith bar80 "FILE CONTENTS:" = false := by decide
  have hg1 : pyStartsWith "GITINGEST RESULTS" "SUMMARY:" = false := by decide
  have hg2 : pyStartsWith "GITINGEST RESULTS" "DIRECTORY STRUCTURE:" = false := by decide
  have hg3 : pyStartsWith "GITINGEST RESULTS" "FILE CONTENTS:" = false := by decide
  have he1 : pyStartsWith "" "SUMMARY:" = false := by decide
  have he2 : pyStartsWith "" "DIRECTORY STRUCTURE:" = false := by decide
  have he3 : pyStartsWith "" "FILE CONTENTS:" = false := by decide
  have hec : contentLine "" := by
    refine ⟨he1, he2, he3, by decide⟩
  simp only [List.cons_append, List.append_assoc, List.nil_append,
    List.singleton_append]
  rw [splitLoop_skip_none bar80 hb1 hb2 hb3,
    splitLoop_skip_none "GITINGEST RESULTS" hg1 hg2 hg3,
    splitLoop_skip_none bar80 hb1 hb2 hb3,
    splitLoop_skip_none "" he1 he2 he3,
    splitLoop_header_summary,
    splitLoop_skip_dash,
    splitLoop_content s hcs,
    splitLoop_content_single "" hec,
    splitLoop_header_dir,
    splitLoop_skip_dash,
    splitLoop_content d hcd,
    splitLoop_content_single "" hec,
    splitLoop_header_fc,
    splitLoop_skip_dash,
    splitLoop_content f hcf,
    splitLoop_content_single "" hec]
  show flushSection _ _ _ = _
  simp [flushSection, setSection]

/-- Witness for `gitingest_roundtrip` at a concrete one-line triple. -/
theorem gitingest_roundtrip_witness :
    (["summary text"] ≠ [""] ∧ (∀ l ∈ ["summary text"], contentLine l)) ∧
    splitGitingestSections (saveToFileLines ["summary text"] ["dir text"] ["file text"])
      = ⟨some (["summary text"] ++ [""]), some (["dir text"] ++ [""]),
         some (["file text"] ++ [""])⟩ :=
  ⟨⟨by decide, by decide⟩,
    (gitingest_roundtrip ["summary text"] ["dir text"] ["file text"]
      (by decide) (by decide) (by decide) (by decide) (by decide) (by decide)).1⟩

/-- C9 counterexample: the unrestricted round-trip claim fails when a
section's text itself contains a header line.  With summary text
`"FILE CONTENTS:"`, the parser finalizes the summary as the empty
string, which differs from the original even modulo surrounding
whitespace. -/
theorem gitingest_roundtrip_counterexample :
    ((splitGitingestSections
        (saveToFileLines ["FILE CONTENTS:"] ["d"] ["c"])).summary.map
      (fun ls => pyStrip (joinNl ls))) = some "" ∧
    pyStrip (joinNl ["FILE CONTENTS:"]) = "FILE CONTENTS:" ∧
    ("" : String) ≠ "FILE CONTENTS:" := by
  refine ⟨by decide, by decide, by decide⟩

end GitIngest

/-! ## SAM code-migrator validation (`sam_project/agents/code_migrator.py`)

Function `_validate_migration` starts at confidence 0.8, applies the
length-ratio and function-preservation penalties, runs the syntax
check (for a `python` target, `compile()` of the migrated text — an
external call modeled by the boolean oracle `pythonCompiles`; a
`SyntaxError` forces `is_valid = False` and assigns confidence 0.2),
then applies the comment-preservation penalty and clamps the
confidence to `[0, 1]`. -/

namespace SamMigrator

open PyStr

/-- Validation dict produced by `_validate_migration` (the syntax
error message is modeled by a fixed representative string, and the
size-change warning without its interpolated ratio). -/
structure Validation where
  isValid : Bool
  warnings : List String
  errors : List String
  confidence : ℚ
  checksPerformed : List String
deriving Repr, DecidableEq

/-- Count of original-comment lines: lines whose stripped form starts
with `#`. -/
def hashCommentLines (s : String) : Nat :=
  ((pySplitlines s).filter fun l => pyStartsWith (pyStrip l) "#").length

/-- Count of migrated-comment lines: lines whose stripped form starts
with `//`. -/
def slashCommentLines (s : String) : Nat :=
  ((pySplitlines s).filter fun l => pyStartsWith (pyStrip l) "//").length

/-- Per-target function-shape patterns of the function-preservation
check. -/
def functionPatternsFor (targetLang : String) : List String :=
  if targetLang = "javascript" ∨ targetLang = "typescript" then
    ["function ", "=>", ": function"]
  else if targetLang = "python" then ["def "]
  else if targetLang = "java" then [") \x7b", "public ", "private "]
  else []

/-- Model of `_validate_migration`.  `analysisFunctions` is the
`functions` list of the file analysis; `pythonCompiles` is the outcome
of `compile(migrated, '<migrated>', 'exec')`. -/
def validateMigration (original migrated : String) (targetLang : String)
    (analysisFunctions : List String) (pythonCompiles : Bool) : Validation :=
  if pyStrip migrated = "" then
    { isValid := false, warnings := [],
      errors := ["Migration produced empty result"],
      confidence := 0, checksPerformed := [] }
  else
    let originalLines : Nat := (pySplitlines original).length
    let migratedLines : Nat := (pySplitlines migrated).length
    let ratio : ℚ :=
      if 0 < originalLines then (migratedLines : ℚ) / (originalLines : ℚ) else 0
    let ratioBad := ratio < 0.3 ∨ 3.0 < ratio
    let warnings1 : List String :=
      if ratioBad then ["Significant size change"] else []
    let confidence1 : ℚ := if ratioBad then 0.8 - 0.1 else 0.8
    let checks2 : List String :=
      if analysisFunctions = [] then ["length_ratio"]
      else ["length_ratio", "function_preservation"]
    let migratedFunctionCount : Nat :=
      ((functionPatternsFor targetLang).map fun p => countOccs migrated p).sum
    let funcShort :=
      analysisFunctions ≠ [] ∧
        (migratedFunctionCount : ℚ) < (analysisFunctions.length : ℚ) * 0.7
    let warnings2 := warnings1 ++
      (if funcShort then ["Some functions may not have been migrated"] else [])
    let confidence2 := confidence1 - (if funcShort then 0.2 else 0)
    let checks3 := checks2 ++ ["syntax_check"]
    let syntaxFail := targetLang = "python" ∧ pythonCompiles = false
    let braceBad :=
      (targetLang = "javascript" ∨ targetLang = "typescript") ∧
        countOccs migrated "\x7b" ≠ countOccs migrated "\x7d"
    let errors3 : List String :=
      if syntaxFail then ["Syntax error: invalid syntax"] else []
    let isValid3 : Bool := if syntaxFail then false else true
    let confidence3 : ℚ :=
      if syntaxFail then 0.2 else confidence2 - (if braceBad then 0.1 else 0)
    let warnings3 := warnings2 ++
      (if braceBad then ["Mismatched braces detected"] else [])
    let commentLost := 0 < hashCommentLines original ∧ slashCommentLines migrated = 0
    let warnings4 := warnings3 ++
      (if commentLost then ["Comments may not have been preserved"] else [])
    let confidence4 := confidence3 - (if commentLost then 0.1 else 0)
    { isValid := isValid3, warnings := warnings4, errors := errors3,
      confidence := max 0 (min 1 confidence4), checksPerformed := checks3 }

/-- C3 amended: for a python target whose migrated text (non-blank)
fails to compile, validation always reports `is_valid: false`, and the
syntax failure overrides every earlier penalty by assigning confidence
0.2 — but the later comment-preservation check still subtracts 0.1
when the original has `#`-comment lines and the migrated text no
`//`-comment lines, so the final confidence is 0.2 exactly when that
check does not fire and 0.1 otherwise.  A compiling migrated text
never produces a syntax error (the only possible error entry is the
empty-result one). -/
theorem validate_python_fail_isValid (original migrated : String)
    (funcs : List String) (hne : pyStrip migrated ≠ "") :
    (validateMigration original migrated "python" funcs false).isValid = false := by
  simp [validateMigration, hne]

theorem validate_python_fail_confidence (original migrated : String)
    (funcs : List String) (hne : pyStrip migrated ≠ "") :
    (validateMigration original migrated "python" funcs false).confidence =
      (if 0 < hashCommentLines original ∧ slashCommentLines migrated = 0
        then (0.1 : ℚ) else 0.2) := by
  by_cases hcl : 0 < hashCommentLines original ∧ slashCommentLines migrated = 0
  · rw [if_pos hcl]
    simp only [validateMigration, hne, if_neg, if_pos, hcl]
    norm_num [hcl, min_def, max_def]
  · rw [if_neg hcl]
    simp only [validateMigration, hne, if_neg, if_pos, hcl]
    norm_num [hcl, min_def, max_def]

theorem validate_python_ok_errors (original migrated : String)
    (funcs : List String) :
    (validateMigration original migrated "python" funcs true).errors = [] ∨
      (validateMigration original migrated "python" funcs true).errors
        = ["Migration produced empty result"] := by
  by_cases hm : pyStrip migrated = ""
  · right
    simp [validateMigration, hm]
  · left
    simp [validateMigration, hm]

theorem validate_migration_python_syntax_gate
    (original migrated : String) (funcs : List String)
    (hne : pyStrip migrated ≠ "") :
    ((validateMigration original migrated "python" funcs false).isValid = false ∧
      (validateMigration original migrated "python" funcs false).confidence =
        (if 0 < hashCommentLines original ∧ slashCommentLines migrated = 0
          then (0.1 : ℚ) else 0.2)) ∧
    (∀ (orig2 mig2 : String) (funcs2 : List String),
      (validateMigration orig2 mig2 "python" funcs2 true).errors = [] ∨
        (validateMigration orig2 mig2 "python" funcs2 true).errors
          = ["Migration produced empty result"]) :=
  ⟨⟨validate_python_fail_isValid original migrated funcs hne,
    validate_python_fail_confidence original migrated funcs hne⟩,
    fun orig2 mig2 funcs2 => validate_python_ok_errors orig2 mig2 funcs2⟩

/-- Witness for `validate_migration_python_syntax_gate` at the spec's
own example (`"def f(:\n  pass"` as the non-compiling migrated text,
a comment-free original). -/
theorem validate_migration_python_syntax_gate_witness :
    pyStrip "def f(:\n  pass" ≠ "" ∧
    ((validateMigration "def f():\n  pass" "def f(:\n  pass" "python" [] false).isValid
        = false ∧
      (validateMigration "def f():\n  pass" "def f(:\n  pass" "python" [] false).confidence =
        (if 0 < hashCommentLines "def f():\n  pass" ∧
            slashCommentLines "def f(:\n  pass" = 0
          then (0.1 : ℚ) else 0.2)) :=
  ⟨by decide,
    (validate_migration_python_syntax_gate "def f():\n  pass" "def f(:\n  pass" []
      (by decide)).1⟩

/-- C3 counterexample: with original `"# c"` (one `#`-comment line)
and the non-compiling migrated text `"def f(:\n  pass"`, the
comment-preservation check fires after the syntax gate, leaving
confidence 0.1 — not the claimed unconditional 0.2. -/
theorem validate_migration_confidence_not_point_two :
    (validateMigration "# c" "def f(:\n  pass" "python" [] false).isValid = false ∧
    (validateMigration "# c" "def f(:\n  pass" "python" [] false).confidence = 0.1 ∧
    (0.1 : ℚ) ≠ 0.2 := by
  have hne : pyStrip "def f(:\n  pass" ≠ "" := by decide
  have hh : 0 < hashCommentLines "# c" := by decide
  have hs : slashCommentLines "def f(:\n  pass" = 0 := by decide
  refine ⟨?_, ?_, by norm_num⟩
  · exact validate_python_fail_isValid "# c" "def f(:\n  pass" [] hne
  · rw [validate_python_fail_confidence "# c" "def f(:\n  pass" [] hne,
      if_pos ⟨hh, hs⟩]

end SamMigrator

end JerryRig
